import Mathlib

/- Shallow embedding of the ATOA traffic-simulation core (src/app.py).

   Positions, speeds, distances and times are modelled as rationals.
   Log messages are modelled as tagged values rather than formatted
   strings; the random draw of the accident-spawn check and the wall
   clock readings are explicit inputs of the tick function. -/

namespace ATOA

/-- Vehicle status; mirrors the status strings of the code:
Normal, Braking (Alert), Braking (Visual), Stopped, Crashed. -/
inductive Status
  | Normal
  | BrakingAlert
  | BrakingVisual
  | Stopped
  | Crashed
deriving DecidableEq, Repr

/-- Mirrors the startswith Braking test used by the code. -/
def Status.isBraking : Status → Bool
  | .BrakingAlert => true
  | .BrakingVisual => true
  | _ => false

/-- ROAD_LENGTH constant of the code. -/
def ROAD_LENGTH : ℚ := 200

/-- NORMAL_SPEED constant of the code. -/
def NORMAL_SPEED : ℚ := 2

/-- BRAKING_SPEED constant of the code. -/
def BRAKING_SPEED : ℚ := 1

/-- Base visual range at zero fog: the literal 50 of the code line
defining VISIBILITY_DISTANCE. -/
def BASE_RANGE : ℚ := 50

/-- BRAKING_DISTANCE constant of the code. -/
def BRAKING_DISTANCE : ℚ := 15

/-- ACCIDENT_PROBABILITY constant of the code. -/
def ACCIDENT_PROBABILITY : ℚ := 1 / 100

/-- ACCIDENT_DURATION_S constant of the code. -/
def ACCIDENT_DURATION_S : ℚ := 20

/-- VISIBILITY_DISTANCE as a function of the fog level:
50 * (1 - fog_level / 100). -/
def visibility_distance (fog : ℚ) : ℚ := BASE_RANGE * (1 - fog / 100)

/-- A vehicle record: the car dictionary of the code. -/
structure Car where
  id : String
  x : ℚ
  speed : ℚ
  status : Status
  alert_message : String
deriving DecidableEq, Repr

instance : Inhabited Car := ⟨⟨"", 0, 0, .Normal, ""⟩⟩

/-- The accident record stored in road_2_accident: crashed car id,
pinned position and creation time. -/
structure Accident where
  id : String
  x : ℚ
  time : ℚ
deriving DecidableEq, Repr

/-- Log and voice messages, modelled as tagged values instead of the
formatted strings built by the code. -/
inductive Msg
  | receivedBroadcast (id : String) (atPos : ℤ)
  | stateChange (id : String) (text : String)
  | chainCrash (id : String)
  | accidentDetected
  | accidentCleared
deriving DecidableEq, Repr

/-- An event emitted by the update: an add_log_entry call with its
message and speak flag. -/
structure Ev where
  msg : Msg
  speak : Bool
deriving DecidableEq, Repr

/-- A log entry: timestamp (the wall-clock reading) plus message. -/
structure LogEntry where
  t : ℚ
  msg : Msg
deriving DecidableEq, Repr

/-- Python float modulo for a positive modulus: x % m = x - m * floor (x / m). -/
def qmod (x m : ℚ) : ℚ := x - m * ((x / m).floor : ℚ)

/-- The distance computation of the tick engine (code lines 81 to 84):
forward distance from a to b on the looping road of length L. -/
def wrapped_distance (a b L : ℚ) : ℚ :=
  if b > a then b - a else (L - a) + b

/-- Distance from a car to the car in front of it, as computed in
update_road_logic. -/
def distance (car front : Car) : ℚ :=
  wrapped_distance car.x front.x ROAD_LENGTH

/-- The clearing condition of the braking-reset line of the code:
no accident, or the car has passed the accident position. -/
def accGone (acc : Option Accident) (x : ℚ) : Bool :=
  match acc with
  | none => true
  | some a => decide (x > a.x)

/-- Status-reset block of update_road_logic (code lines 87 to 90). -/
def resetStep (acc : Option Accident) (front car : Car) : Car :=
  let c1 :=
    if car.status = .Stopped ∧ front.status ≠ .Stopped ∧ front.status ≠ .Crashed
    then { car with status := .Normal } else car
  if c1.status.isBraking = true ∧ accGone acc c1.x = true
  then { c1 with status := .Normal } else c1

/-- ATOA alert block of update_road_logic (code lines 100 to 103):
returns the updated car and the emitted events. -/
def alertStep (acc : Option Accident) (car : Car) : Car × List Ev :=
  match acc with
  | none => (car, [])
  | some a =>
    if car.x < a.x ∧ car.status = .Normal then
      ({ car with status := .BrakingAlert,
                  alert_message := "ATOA Alert: Accident Ahead!" },
       [⟨Msg.receivedBroadcast car.id a.x.floor, true⟩])
    else (car, [])

/-- Driver visual block of update_road_logic (code lines 108 to 127). -/
def visualStep (vis d : ℚ) (front car : Car) : Car :=
  if d ≤ vis then
    if front.status = .Crashed then
      if d ≤ BRAKING_DISTANCE then
        { car with status := .Crashed, alert_message := "CRASHED!" }
      else if car.status = .Normal then
        { car with status := .BrakingVisual,
                   alert_message := "Driver: Crash Spotted!" }
      else car
    else if front.status.isBraking = true ∧ car.status = .Normal then
      { car with status := .BrakingVisual,
                 alert_message := "Driver: Brakes Spotted!" }
    else if front.status = .Stopped ∧ car.status = .Normal then
      { car with status := .BrakingVisual,
                 alert_message := "Driver: Stopped Car!" }
    else car
  else car

/-- Speed-policy block of update_road_logic (code lines 130 to 143). -/
def speedStep (d : ℚ) (car : Car) : Car :=
  if car.status.isBraking = true then
    let c := { car with speed := BRAKING_SPEED }
    if d ≤ BRAKING_DISTANCE + 5 then
      { c with status := .Stopped, alert_message := "Stopped Safely." }
    else c
  else if car.status = .Normal then
    let c := { car with speed := NORMAL_SPEED, alert_message := "All clear." }
    if d < BRAKING_DISTANCE + 10 then { c with speed := BRAKING_SPEED } else c
  else car

/-- State-change logging block of update_road_logic (code lines 146 to 153). -/
def changeEvents (old : Status) (car : Car) : List Ev :=
  if car.status ≠ old ∧ car.status ≠ .Crashed then
    if car.status = .BrakingVisual then
      [⟨Msg.stateChange car.id car.alert_message, true⟩]
    else if car.status = .Stopped then
      [⟨Msg.stateChange car.id car.alert_message, false⟩]
    else []
  else if car.status = .Crashed ∧ old ≠ .Crashed then
    [⟨Msg.chainCrash car.id, true⟩]
  else []

/-- Movement block of update_road_logic (code lines 157 to 159). -/
def moveStep (car : Car) : Car :=
  if car.status ≠ .Stopped then
    { car with x := qmod (car.x + car.speed) ROAD_LENGTH }
  else car

/-- One loop iteration of update_road_logic for a single car, given the
current state of the car in front: resets, crashed skip, alert, visual
check, speed policy, change logging and movement, in the order of the
code.  Returns the updated car and the emitted events. -/
def stepCar (vis : ℚ) (acc : Option Accident) (front car : Car) : Car × List Ev :=
  let d := distance car front
  let c1 := resetStep acc front car
  if c1.status = .Crashed then ({ c1 with speed := 0 }, [])
  else
    let old := c1.status
    let p := alertStep acc c1
    let c4 := speedStep d (visualStep vis d front p.1)
    (moveStep c4, p.2 ++ changeEvents old c4)

/-- Stable insertion of a car into a list sorted by strictly descending
position; an inserted car goes before cars with equal position that were
originally later, matching the stable descending sort of the code. -/
def insertDesc (c : Car) : List Car → List Car
  | [] => [c]
  | d :: ds => if d.x > c.x then d :: insertDesc c ds else c :: d :: ds

/-- Stable sort by descending position, as done at the top of
update_road_logic (lead car first). -/
def sortDesc : List Car → List Car
  | [] => []
  | c :: cs => insertDesc c (sortDesc cs)

/-- add_log_entry of the code: prepend the entry if it is not already in
the log, and in that case queue the voice message when speak is set. -/
def add_log_entry (now : ℚ) (log : List LogEntry) (m : Msg)
    (voice : List Msg) (speak : Bool) : List LogEntry × List Msg :=
  let entry : LogEntry := ⟨now, m⟩
  if entry ∈ log then (log, voice)
  else (entry :: log, if speak then voice ++ [m] else voice)

/-- Feed a list of emitted events through add_log_entry in order. -/
def applyEvents (now : ℚ) : List Ev → List LogEntry × List Msg → List LogEntry × List Msg
  | [], s => s
  | e :: rest, (log, voice) => applyEvents now rest (add_log_entry now log e.msg voice e.speak)

/-- The indexed loop of update_road_logic: car i reads the current list
state, its leader being the previous element, or the last element for
the lead car, and writes its update back in place. -/
def goUpdate (vis : ℚ) (acc : Option Accident) (now : ℚ) :
    Nat → Nat → List Car → List LogEntry → List Msg →
    List Car × List LogEntry × List Msg
  | 0, _, cs, log, voice => (cs, log, voice)
  | n + 1, i, cs, log, voice =>
    let car := (cs[i]?).getD default
    let front := if i = 0 then (cs.getLast?).getD default else (cs[i - 1]?).getD default
    let r := stepCar vis acc front car
    let lv := applyEvents now r.2 (log, voice)
    goUpdate vis acc now n (i + 1) (cs.set i r.1) lv.1 lv.2

/-- update_road_logic of the code: sort the cars lead-first, then update
each car in order, threading the log and the voice queue. -/
def update_road_logic (vis now : ℚ) (cars : List Car) (acc : Option Accident)
    (log : List LogEntry) (voice : List Msg) :
    List Car × List LogEntry × List Msg :=
  let sorted := sortDesc cars
  goUpdate vis acc now sorted.length 0 sorted log voice

/-- The per-road session state threaded through one rerun of the script. -/
structure SimState where
  cars : List Car
  accident : Option Accident
  log : List LogEntry
  voice : List Msg
deriving DecidableEq, Repr

/-- Module-level random accident spawn (code lines 261 to 272): with no
active accident, a draw r below ACCIDENT_PROBABILITY picks the car at
choiceIdx; if that car is Normal it becomes Crashed and the accident
record pins its id, position and the current time. -/
def spawn_check (r : ℚ) (choiceIdx : ℕ) (now : ℚ) (s : SimState) : SimState :=
  match s.accident with
  | some _ => s
  | none =>
    if r < ACCIDENT_PROBABILITY then
      match s.cars[choiceIdx % s.cars.length]? with
      | none => s
      | some c =>
        if c.status = .Normal then
          let lv := add_log_entry now s.log Msg.accidentDetected s.voice true
          { cars := s.cars.map (fun v => if v.id = c.id then { v with status := .Crashed } else v),
            accident := some ⟨c.id, c.x, now⟩,
            log := lv.1, voice := lv.2 }
        else s
    else s

/-- Module-level accident clearing (code lines 275 to 282): if the
accident is older than ACCIDENT_DURATION_S, log the clearing, reset
every car carrying the accident id to Normal, and drop the accident. -/
def expiry_check (now : ℚ) (s : SimState) : SimState :=
  match s.accident with
  | none => s
  | some a =>
    if now - a.time > ACCIDENT_DURATION_S then
      let lv := add_log_entry now s.log Msg.accidentCleared s.voice true
      { cars := s.cars.map (fun c => if c.id = a.id then { c with status := .Normal } else c),
        accident := none, log := lv.1, voice := lv.2 }
    else s

/-- One full tick for the ATOA road: spawn check, expiry check, then
update_road_logic, with the random draw, choice index and wall-clock
reading passed explicitly. -/
def tick (vis r : ℚ) (choiceIdx : ℕ) (now : ℚ) (s : SimState) : SimState :=
  let s1 := spawn_check r choiceIdx now s
  let s2 := expiry_check now s1
  let u := update_road_logic vis now s2.cars s2.accident s2.log s2.voice
  { cars := u.1, accident := s2.accident, log := u.2.1, voice := u.2.2 }

/- ------------------------------------------------------------------ -/
/- Helper lemmas about the stages of stepCar                           -/
/- ------------------------------------------------------------------ -/

lemma isBraking_iff (s : Status) :
    s.isBraking = true ↔ s = .BrakingAlert ∨ s = .BrakingVisual := by
  cases s <;> simp [Status.isBraking]

lemma isBraking_ne (s : Status) (h : s.isBraking = true) :
    s ≠ .Stopped ∧ s ≠ .Crashed ∧ s ≠ .Normal := by
  cases s <;> simp_all [Status.isBraking]

lemma resetStep_x (acc : Option Accident) (front car : Car) :
    (resetStep acc front car).x = car.x := by
  simp only [resetStep]
  split_ifs <;> rfl

lemma resetStep_speed (acc : Option Accident) (front car : Car) :
    (resetStep acc front car).speed = car.speed := by
  simp only [resetStep]
  split_ifs <;> rfl

lemma resetStep_of_normal (acc : Option Accident) (front car : Car)
    (h : car.status = .Normal) : resetStep acc front car = car := by
  simp [resetStep, h, Status.isBraking]

lemma resetStep_of_crashed (acc : Option Accident) (front car : Car)
    (h : car.status = .Crashed) : resetStep acc front car = car := by
  simp [resetStep, h, Status.isBraking]

lemma resetStep_crashed_iff (acc : Option Accident) (front car : Car) :
    (resetStep acc front car).status = .Crashed ↔ car.status = .Crashed := by
  rcases car with ⟨i, x, sp, st, m⟩
  cases st <;> simp [resetStep, Status.isBraking] <;> split_ifs <;> simp_all

lemma alertStep_x (acc : Option Accident) (car : Car) :
    ((alertStep acc car).1).x = car.x := by
  cases acc with
  | none => rfl
  | some a =>
    simp only [alertStep]
    split_ifs <;> rfl

lemma alertStep_speed (acc : Option Accident) (car : Car) :
    ((alertStep acc car).1).speed = car.speed := by
  cases acc with
  | none => rfl
  | some a =>
    simp only [alertStep]
    split_ifs <;> rfl

lemma alertStep_crashed_iff (acc : Option Accident) (car : Car) :
    ((alertStep acc car).1).status = .Crashed ↔ car.status = .Crashed := by
  cases acc with
  | none => rfl
  | some a =>
    simp only [alertStep]
    split_ifs <;> simp_all

lemma visualStep_x (vis d : ℚ) (front car : Car) :
    (visualStep vis d front car).x = car.x := by
  simp only [visualStep]
  split_ifs <;> rfl

lemma visualStep_speed (vis d : ℚ) (front car : Car) :
    (visualStep vis d front car).speed = car.speed := by
  simp only [visualStep]
  split_ifs <;> rfl

lemma visualStep_crashed_iff (vis d : ℚ) (front car : Car) :
    (visualStep vis d front car).status = .Crashed ↔
      car.status = .Crashed ∨
        (d ≤ vis ∧ front.status = .Crashed ∧ d ≤ BRAKING_DISTANCE) := by
  simp only [visualStep]
  split_ifs <;> simp_all

lemma speedStep_x (d : ℚ) (car : Car) :
    (speedStep d car).x = car.x := by
  simp only [speedStep]
  split_ifs <;> rfl

lemma speedStep_crashed_iff (d : ℚ) (car : Car) :
    (speedStep d car).status = .Crashed ↔ car.status = .Crashed := by
  rcases car with ⟨i, x, sp, st, m⟩
  cases st <;> simp [speedStep, Status.isBraking] <;> split_ifs <;> simp_all

lemma speedStep_speed_of_stopped (d : ℚ) (car : Car)
    (h : (speedStep d car).status = .Stopped) :
    (speedStep d car).speed = BRAKING_SPEED ∨ (speedStep d car).speed = car.speed := by
  rcases car with ⟨i, x, sp, st, m⟩
  cases st <;> simp_all [speedStep, Status.isBraking] <;> split_ifs <;> simp_all

lemma moveStep_status (car : Car) : (moveStep car).status = car.status := by
  simp only [moveStep]
  split_ifs <;> rfl

lemma moveStep_of_stopped (car : Car) (h : car.status = .Stopped) :
    moveStep car = car := by
  simp [moveStep, h]

/-- Unfolding equation for stepCar with its lets expanded. -/
lemma stepCar_eq (vis : ℚ) (acc : Option Accident) (front car : Car) :
    stepCar vis acc front car =
      if (resetStep acc front car).status = .Crashed
      then ({ resetStep acc front car with speed := 0 }, [])
      else
        (moveStep (speedStep (distance car front)
            (visualStep vis (distance car front) front (alertStep acc (resetStep acc front car)).1)),
         (alertStep acc (resetStep acc front car)).2 ++
           changeEvents (resetStep acc front car).status
             (speedStep (distance car front)
               (visualStep vis (distance car front) front (alertStep acc (resetStep acc front car)).1))) := rfl

/-- The only way stepCar produces a Crashed status: the car was already
Crashed, or the car in front is Crashed within both the visibility range
and the braking distance. -/
lemma stepCar_crashed_iff (vis : ℚ) (acc : Option Accident) (front car : Car) :
    (stepCar vis acc front car).1.status = .Crashed ↔
      car.status = .Crashed ∨
        (distance car front ≤ vis ∧ front.status = .Crashed ∧
          distance car front ≤ BRAKING_DISTANCE) := by
  rw [stepCar_eq]
  by_cases hc : (resetStep acc front car).status = .Crashed
  · rw [if_pos hc]
    have hcar : car.status = .Crashed := (resetStep_crashed_iff acc front car).mp hc
    simp [hc, hcar]
  · rw [if_neg hc]
    simp only [moveStep_status, speedStep_crashed_iff, visualStep_crashed_iff,
      alertStep_crashed_iff, resetStep_crashed_iff]

/- ------------------------------------------------------------------ -/
/- Claim theorems                                                      -/
/- ------------------------------------------------------------------ -/

/-- C1: with an active hazard strictly ahead in raw coordinates
(vehicle position below the hazard position, which is the exact
ahead-of-hazard condition of the code) and a Normal status, the alert
stage transitions the vehicle to BrakingAlert, and stepCar emits the
alert-received broadcast event first.  A vehicle never receives an
alert about its own crash: the originating vehicle of an active hazard
is Crashed, and stepCar maps any Crashed vehicle to itself with speed
zero and emits no events at all. -/
theorem spec_C1 (vis : ℚ) (a : Accident) (front origfront car origin : Car)
    (h1 : car.status = .Normal) (h2 : car.x < a.x) (h3 : origin.status = .Crashed) :
    (alertStep (some a) car).1.status = .BrakingAlert ∧
    (stepCar vis (some a) front car).2.head? =
      some ⟨Msg.receivedBroadcast car.id a.x.floor, true⟩ ∧
    stepCar vis (some a) origfront origin = ({ origin with speed := 0 }, []) := by
  refine ⟨?_, ?_, ?_⟩
  · simp [alertStep, h1, h2]
  · rw [stepCar_eq, resetStep_of_normal _ _ _ h1]
    rw [if_neg (by rw [h1]; simp)]
    simp [alertStep, h1, h2]
  · rw [stepCar_eq, resetStep_of_crashed _ _ _ h3, if_pos h3]

/-- Witness for C1 at a concrete input. -/
theorem spec_C1_w :
    (alertStep (some ⟨"A", 120, 0⟩) ⟨"B", 50, 2, .Normal, ""⟩).1.status = .BrakingAlert ∧
    (stepCar 10 (some ⟨"A", 120, 0⟩) ⟨"A", 120, 0, .Crashed, ""⟩
        ⟨"B", 50, 2, .Normal, ""⟩).2.head? =
      some ⟨Msg.receivedBroadcast "B" 120, true⟩ ∧
    stepCar 10 (some ⟨"A", 120, 0⟩) ⟨"B", 50, 2, .Normal, ""⟩
        ⟨"A", 120, 0, .Crashed, ""⟩ =
      ({ id := "A", x := 120, speed := 0, status := .Crashed, alert_message := "" }, []) :=
  spec_C1 10 ⟨"A", 120, 0⟩ ⟨"A", 120, 0, .Crashed, ""⟩ ⟨"B", 50, 2, .Normal, ""⟩
    ⟨"B", 50, 2, .Normal, ""⟩ ⟨"A", 120, 0, .Crashed, ""⟩ rfl (by with_unfolding_all decide) rfl

/-- C2: a leader Crashed within both the visibility range and the
braking distance forces a Crashed transition, overriding any braking
state; and conversely a vehicle not already Crashed becomes Crashed in
a tick update only under exactly these conditions. -/
theorem spec_C2 (vis : ℚ) (acc : Option Accident) (front car : Car) :
    ((distance car front ≤ vis ∧ front.status = .Crashed ∧
        distance car front ≤ BRAKING_DISTANCE) →
      (stepCar vis acc front car).1.status = .Crashed) ∧
    (car.status ≠ .Crashed → (stepCar vis acc front car).1.status = .Crashed →
      front.status = .Crashed ∧ distance car front ≤ vis ∧
        distance car front ≤ BRAKING_DISTANCE) := by
  constructor
  · intro h
    rw [stepCar_crashed_iff]
    exact Or.inr h
  · intro hne h
    rw [stepCar_crashed_iff] at h
    rcases h with h | h
    · exact absurd h hne
    · exact ⟨h.2.1, h.1, h.2.2⟩

/-- Witness for C2 at a concrete input. -/
theorem spec_C2_w :
    (stepCar 10 none ⟨"F", 120, 0, .Crashed, ""⟩
      ⟨"C", 110, 2, .Normal, ""⟩).1.status = .Crashed :=
  (spec_C2 10 none ⟨"F", 120, 0, .Crashed, ""⟩ ⟨"C", 110, 2, .Normal, ""⟩).1 (by with_unfolding_all decide)

/-- C3 counterexample: a Normal vehicle 10 units behind a Crashed
leader (visibility 10) chain-crashes during the tick, and the tick
leaves it with status Crashed, speed 2 and an advanced position, so
after the update a Crashed vehicle exists whose speed is not 0 and
whose position changed within that same tick. -/
theorem spec_C3_cex :
    ((update_road_logic 10 5
        [⟨"A", 120, 0, .Crashed, ""⟩, ⟨"B", 110, 2, .Normal, ""⟩]
        (some ⟨"A", 120, 0⟩) [] []).1[1]?.map Car.status = some .Crashed) ∧
    ¬ ((update_road_logic 10 5
        [⟨"A", 120, 0, .Crashed, ""⟩, ⟨"B", 110, 2, .Normal, ""⟩]
        (some ⟨"A", 120, 0⟩) [] []).1[1]?.map Car.speed = some 0) ∧
    ¬ ((update_road_logic 10 5
        [⟨"A", 120, 0, .Crashed, ""⟩, ⟨"B", 110, 2, .Normal, ""⟩]
        (some ⟨"A", 120, 0⟩) [] []).1[1]?.map Car.x = some 110) := by with_unfolding_all decide

/-- C3 amended: a vehicle that is already Crashed when the tick update
reaches it is frozen: stepCar forces its speed to 0, leaves position,
status and every other field unchanged, and emits no events; only the
hazard-expiry reset can change it afterwards.  A vehicle that becomes
Crashed during the update, however, keeps its stale speed and still
advances once in that tick. -/
theorem spec_C3 (vis : ℚ) (acc : Option Accident) (front car : Car)
    (h : car.status = .Crashed) :
    stepCar vis acc front car = ({ car with speed := 0 }, []) := by
  rw [stepCar_eq, resetStep_of_crashed _ _ _ h, if_pos h]

/-- Witness for C3 at a concrete input. -/
theorem spec_C3_w :
    stepCar 10 none ⟨"B", 50, 2, .Normal, ""⟩ ⟨"A", 120, 3, .Crashed, ""⟩ =
      ({ id := "A", x := 120, speed := 0, status := .Crashed, alert_message := "" }, []) :=
  spec_C3 10 none ⟨"B", 50, 2, .Normal, ""⟩ ⟨"A", 120, 3, .Crashed, ""⟩ rfl

/-- C4 counterexample: a braking vehicle 19 units behind its leader
stops during the tick and ends the tick with status Stopped and stored
speed 1 (BRAKING_SPEED), not 0. -/
theorem spec_C4_cex :
    ((update_road_logic 10 0
        [⟨"A", 118, 2, .Normal, ""⟩, ⟨"B", 100, 1, .BrakingAlert, ""⟩]
        (some ⟨"Z", 150, 0⟩) [] []).1[1]?.map Car.status = some .Stopped) ∧
    ¬ ((update_road_logic 10 0
        [⟨"A", 118, 2, .Normal, ""⟩, ⟨"B", 100, 1, .BrakingAlert, ""⟩]
        (some ⟨"Z", 150, 0⟩) [] []).1[1]?.map Car.speed = some 0) := by with_unfolding_all decide

/-- C4 amended: after a tick update a Stopped vehicle has an unchanged
position (it does not move), but its stored speed field is not zeroed:
it is BRAKING_SPEED when the vehicle passed through the braking speed
policy this tick, and otherwise the previously stored speed. -/
theorem spec_C4 (vis : ℚ) (acc : Option Accident) (front car : Car)
    (h : (stepCar vis acc front car).1.status = .Stopped) :
    (stepCar vis acc front car).1.x = car.x ∧
    ((stepCar vis acc front car).1.speed = BRAKING_SPEED ∨
      (stepCar vis acc front car).1.speed = car.speed) := by
  rw [stepCar_eq] at h ⊢
  by_cases hc : (resetStep acc front car).status = .Crashed
  · rw [if_pos hc] at h
    have : (resetStep acc front car).status = .Stopped := h
    rw [hc] at this
    exact absurd this (by simp)
  · rw [if_neg hc] at h ⊢
    have h4 : (speedStep (distance car front)
        (visualStep vis (distance car front) front
          (alertStep acc (resetStep acc front car)).1)).status = .Stopped := by
      have := moveStep_status (speedStep (distance car front)
        (visualStep vis (distance car front) front
          (alertStep acc (resetStep acc front car)).1))
      exact this ▸ h
    constructor
    · show (moveStep _).x = car.x
      rw [moveStep_of_stopped _ h4, speedStep_x, visualStep_x, alertStep_x, resetStep_x]
    · show (moveStep _).speed = BRAKING_SPEED ∨ (moveStep _).speed = car.speed
      rw [moveStep_of_stopped _ h4]
      rcases speedStep_speed_of_stopped _ _ h4 with h5 | h5
      · exact Or.inl h5
      · right
        rw [h5, visualStep_speed, alertStep_speed, resetStep_speed]

/-- Witness for C4 at a concrete input. -/
theorem spec_C4_w :
    (stepCar 10 (some ⟨"Z", 150, 0⟩) ⟨"A", 119, 1, .BrakingAlert, ""⟩
        ⟨"B", 100, 1, .BrakingAlert, ""⟩).1.x = 100 ∧
    ((stepCar 10 (some ⟨"Z", 150, 0⟩) ⟨"A", 119, 1, .BrakingAlert, ""⟩
        ⟨"B", 100, 1, .BrakingAlert, ""⟩).1.speed = BRAKING_SPEED ∨
      (stepCar 10 (some ⟨"Z", 150, 0⟩) ⟨"A", 119, 1, .BrakingAlert, ""⟩
        ⟨"B", 100, 1, .BrakingAlert, ""⟩).1.speed = 1) :=
  spec_C4 10 (some ⟨"Z", 150, 0⟩) ⟨"A", 119, 1, .BrakingAlert, ""⟩
    ⟨"B", 100, 1, .BrakingAlert, ""⟩ (by with_unfolding_all decide)

/-- C5 counterexample: a braking vehicle 15 units behind the active
hazard (within BRAKING_DISTANCE + 5 of the hazard position, so the
claim requires a Stopped transition) whose leader is 45 units ahead
stays braking: the code measures the stop condition against the leader
distance only, never against the hazard position. -/
theorem spec_C5_cex :
    (⟨"B", 85, 1, .BrakingAlert, ""⟩ : Car).status.isBraking = true ∧
    (100 : ℚ) - 85 ≤ BRAKING_DISTANCE + 5 ∧
    (stepCar 50 (some ⟨"Z", 100, 0⟩) ⟨"A", 130, 2, .Normal, ""⟩
      ⟨"B", 85, 1, .BrakingAlert, ""⟩).1.status ≠ .Stopped := by
  with_unfolding_all decide

/-- C5 amended: in the speed-policy step a braking vehicle gets speed
BRAKING_SPEED and transitions to Stopped exactly when its distance to
the leader (the car in front, the value stepCar passes to this step) is
at most BRAKING_DISTANCE + 5; the hazard position plays no role in the
stop decision (the step does not even receive the hazard). -/
theorem spec_C5 (d : ℚ) (car : Car) (h : car.status.isBraking = true) :
    (speedStep d car).speed = BRAKING_SPEED ∧
    ((speedStep d car).status = .Stopped ↔ d ≤ BRAKING_DISTANCE + 5) := by
  simp only [speedStep, if_pos h]
  split_ifs with h2
  · exact ⟨rfl, by simp [h2]⟩
  · refine ⟨rfl, ?_⟩
    constructor
    · intro hs
      exact absurd hs (isBraking_ne _ h).1
    · intro hd
      exact absurd hd h2

/-- Witness for C5 at a concrete input. -/
theorem spec_C5_w :
    (speedStep 18 ⟨"B", 85, 1, .BrakingAlert, ""⟩).speed = BRAKING_SPEED ∧
    ((speedStep 18 ⟨"B", 85, 1, .BrakingAlert, ""⟩).status = .Stopped ↔
      (18 : ℚ) ≤ BRAKING_DISTANCE + 5) :=
  spec_C5 18 ⟨"B", 85, 1, .BrakingAlert, ""⟩ rfl

/-- C6 counterexample: with elapsed time exactly HAZARD_DURATION (20),
the claim says the next tick removes the hazard, but the clearing check
of the code uses a strict comparison and keeps it, both in the clearing
step and across a whole tick. -/
theorem spec_C6_cex :
    ACCIDENT_DURATION_S ≤ (20 : ℚ) - 0 ∧
    (expiry_check 20 ⟨[⟨"A", 120, 0, .Crashed, ""⟩], some ⟨"A", 120, 0⟩, [], []⟩).accident =
      some ⟨"A", 120, 0⟩ ∧
    (tick 10 1 0 20 ⟨[⟨"A", 120, 0, .Crashed, ""⟩], some ⟨"A", 120, 0⟩, [], []⟩).accident =
      some ⟨"A", 120, 0⟩ := by
  with_unfolding_all decide

/-- C6 amended: an active hazard persists while the elapsed time is at
most HAZARD_DURATION (the clearing check is strict); once elapsed time
exceeds HAZARD_DURATION the clearing step removes the hazard and resets
every vehicle carrying the originating id (in particular the
originating vehicle, still Crashed) to Normal. -/
theorem spec_C6 (now : ℚ) (s : SimState) (a : Accident) (h : s.accident = some a) :
    (ACCIDENT_DURATION_S < now - a.time →
      (expiry_check now s).accident = none ∧
      ∀ c ∈ (expiry_check now s).cars, c.id = a.id → c.status = .Normal) ∧
    (now - a.time ≤ ACCIDENT_DURATION_S → expiry_check now s = s) := by
  constructor
  · intro hgt
    simp only [expiry_check, h]
    rw [if_pos hgt]
    refine ⟨rfl, ?_⟩
    intro c hc hid
    simp only [List.mem_map] at hc
    obtain ⟨c0, _, rfl⟩ := hc
    by_cases h0 : c0.id = a.id
    · simp [h0]
    · simp only [if_neg h0] at hid ⊢
      exact absurd hid h0
  · intro hle
    simp only [expiry_check, h]
    rw [if_neg (by linarith)]

/-- Witness for C6 at a concrete input. -/
theorem spec_C6_w :
    (expiry_check 25 ⟨[⟨"A", 120, 0, .Crashed, ""⟩], some ⟨"A", 120, 0⟩, [], []⟩).accident =
      none :=
  ((spec_C6 25 ⟨[⟨"A", 120, 0, .Crashed, ""⟩], some ⟨"A", 120, 0⟩, [], []⟩
      ⟨"A", 120, 0⟩ rfl).1 (by norm_num [ACCIDENT_DURATION_S])).1

/-- C7 counterexample: for two equal positions inside the road range
the engine distance is exactly road_length, so it is not strictly less
than road_length as the claim states. -/
theorem spec_C7_cex :
    (0 : ℚ) ≤ 0 ∧ (0 : ℚ) < 200 ∧ ¬ wrapped_distance 0 0 200 < 200 := by
  norm_num [wrapped_distance]

/-- C7 amended: for positions a and b in the range of a road of length
L, the engine distance is non-negative and at most L, and it is
strictly less than L whenever the two positions differ; at equal
positions it equals L. -/
theorem spec_C7 (a b L : ℚ) (h0 : 0 ≤ a) (h1 : a < L) (h2 : 0 ≤ b) (h3 : b < L) :
    0 ≤ wrapped_distance a b L ∧ wrapped_distance a b L ≤ L ∧
      (a ≠ b → wrapped_distance a b L < L) := by
  unfold wrapped_distance
  split_ifs with h
  · exact ⟨by linarith, by linarith, fun _ => by linarith⟩
  · push_neg at h
    refine ⟨by linarith, by linarith, fun hne => ?_⟩
    have hba : b < a := lt_of_le_of_ne h (fun e => hne e.symm)
    linarith

/-- Witness for C7 at a concrete input. -/
theorem spec_C7_w :
    0 ≤ wrapped_distance 10 60 200 ∧ wrapped_distance 10 60 200 ≤ 200 ∧
      ((10 : ℚ) ≠ 60 → wrapped_distance 10 60 200 < 200) :=
  spec_C7 10 60 200 (by norm_num) (by norm_num) (by norm_num) (by norm_num)

/-- C8: the visibility function equals BASE_RANGE at fog 0 and 0 at
fog 100, is monotonically non-increasing over the fog range 0 to 100,
and stays within 0 and BASE_RANGE there. -/
theorem spec_C8 :
    visibility_distance 0 = BASE_RANGE ∧ visibility_distance 100 = 0 ∧
    (∀ f g : ℚ, 0 ≤ f → f ≤ g → g ≤ 100 → visibility_distance g ≤ visibility_distance f) ∧
    (∀ f : ℚ, 0 ≤ f → f ≤ 100 →
      0 ≤ visibility_distance f ∧ visibility_distance f ≤ BASE_RANGE) := by
  refine ⟨by norm_num [visibility_distance, BASE_RANGE],
          by norm_num [visibility_distance, BASE_RANGE], ?_, ?_⟩
  · intro f g hf hfg hg
    unfold visibility_distance BASE_RANGE
    linarith
  · intro f hf hg
    unfold visibility_distance BASE_RANGE
    constructor <;> linarith

/-- Witness for C8 at a concrete input. -/
theorem spec_C8_w :
    0 ≤ visibility_distance 30 ∧ visibility_distance 30 ≤ BASE_RANGE :=
  spec_C8.2.2.2 30 (by norm_num) (by norm_num)

/-- C9 counterexample: the tick also reads the wall clock, which is not
part of the frozen state nor of the random source: the same state and
the same random draw produce different outputs at clock readings 10 and
25, because the hazard expiry decision depends on the clock. -/
theorem spec_C9_cex :
    tick 10 1 0 10 ⟨[⟨"A", 120, 0, .Crashed, ""⟩, ⟨"B", 50, 2, .Normal, "All clear."⟩],
        some ⟨"A", 120, 0⟩, [], []⟩ ≠
    tick 10 1 0 25 ⟨[⟨"A", 120, 0, .Crashed, ""⟩, ⟨"B", 50, 2, .Normal, "All clear."⟩],
        some ⟨"A", 120, 0⟩, [], []⟩ := by
  with_unfolding_all decide

/-- C9 amended: the tick is deterministic given its frozen input state,
its random draws and its clock reading: it is a pure function of these
explicit inputs, so equal inputs give equal output states. -/
theorem spec_C9 (vis r : ℚ) (idx : ℕ) (now : ℚ) (s t : SimState) (h : s = t) :
    tick vis r idx now s = tick vis r idx now t := by
  rw [h]

/-- Witness for C9 at a concrete input. -/
theorem spec_C9_w :
    tick 10 1 0 0 ⟨[⟨"A", 0, 2, .Normal, ""⟩], none, [], []⟩ =
    tick 10 1 0 0 ⟨[⟨"A", 0, 2, .Normal, ""⟩], none, [], []⟩ :=
  spec_C9 10 1 0 0 ⟨[⟨"A", 0, 2, .Normal, ""⟩], none, [], []⟩
    ⟨[⟨"A", 0, 2, .Normal, ""⟩], none, [], []⟩ rfl

/-- C10: a Stopped vehicle is not exempt from the chain reaction: with
its leader Crashed within both the visibility range and the braking
distance, the tick update transitions the Stopped vehicle to Crashed
(only Crashed vehicles are skipped by the update). -/
theorem spec_C10 (vis : ℚ) (acc : Option Accident) (front car : Car)
    (h1 : car.status = .Stopped) (h2 : front.status = .Crashed)
    (h3 : distance car front ≤ vis) (h4 : distance car front ≤ BRAKING_DISTANCE) :
    (stepCar vis acc front car).1.status = .Crashed := by
  rw [stepCar_crashed_iff]
  exact Or.inr ⟨h3, h2, h4⟩

/-- Witness for C10 at a concrete input. -/
theorem spec_C10_w :
    (stepCar 10 none ⟨"F", 120, 0, .Crashed, ""⟩
      ⟨"C", 110, 1, .Stopped, ""⟩).1.status = .Crashed :=
  spec_C10 10 none ⟨"F", 120, 0, .Crashed, ""⟩ ⟨"C", 110, 1, .Stopped, ""⟩
    rfl rfl (by with_unfolding_all decide) (by with_unfolding_all decide)

end ATOA
